import Mathlib

/-!
Verification of the paperless-lexoffice middleware workflow engine.

This file gives a shallow embedding of the engine's core logic:

* `src/backend/app/engine/triggers.py` — `TriggerHandler.evaluate_trigger`,
  `_evaluate_conditions`, `_resolve_field`, `_compare`;
* `src/backend/app/engine/executor.py` — `WorkflowExecutor.execute_workflow`;
* `src/backend/app/engine/actions.py` — `ActionRunner._set_tag`.

JSON-like Python values (the event payloads, condition trees, parameter
bags and contexts that flow through the engine) are embedded as the
inductive type `PyVal`.  Python dictionaries are association lists with
the usual first-match lookup; Python exceptions are `Except String`
errors carrying the message; external collaborators (the database query
and the connector-backed action handlers) are oracle parameters.

Recursive functions over `PyVal` (structural recursion through nested
lists/dictionaries) are written with an explicit fuel argument so that
they stay kernel-reducible; the public wrappers instantiate the fuel
with `pyRank v + 1`, which always suffices because every recursive call
descends to a structurally smaller value.
-/

-- Decidable equality for `Except`, used to evaluate the model on
-- concrete inputs.
deriving instance DecidableEq for Except

namespace Engine

/-- A JSON-like Python value: `None`, booleans, integers, strings,
lists, and string-keyed dictionaries (association lists). -/
inductive PyVal where
  | none : PyVal
  | bool : Bool → PyVal
  | int : Int → PyVal
  | str : String → PyVal
  | list : List PyVal → PyVal
  | dict : List (String × PyVal) → PyVal
deriving Repr, Inhabited

/-- A Python dictionary with string keys, as used for event payloads,
action parameter bags and the execution context. -/
abbrev PyDict := List (String × PyVal)

/-- Dictionary lookup, `d.get(k)` without a default: first binding wins. -/
def dictGet? : PyDict → String → Option PyVal
  | [], _ => Option.none
  | (k, v) :: rest, key => if k == key then some v else dictGet? rest key

mutual

/-- Structural size of a JSON-like value, used as the fuel bound for
the fuel-indexed recursions in this file. -/
def pyRank : PyVal → Nat
  | .none => 1
  | .bool _ => 1
  | .int _ => 1
  | .str _ => 1
  | .list xs => 1 + pyRankSeq xs
  | .dict kvs => 1 + pyRankKVs kvs

/-- Structural size of a list of JSON-like values. -/
def pyRankSeq : List PyVal → Nat
  | [] => 0
  | v :: rest => 1 + pyRank v + pyRankSeq rest

/-- Structural size of a dictionary's bindings. -/
def pyRankKVs : List (String × PyVal) → Nat
  | [] => 0
  | (_, v) :: rest => 1 + pyRank v + pyRankKVs rest

end

/-- Python truthiness `bool(v)`: `None`, `False`, `0`, `""`, `[]` and
an empty dictionary are falsy, everything else is truthy. -/
def pyTruthy : PyVal → Bool
  | .none => false
  | .bool b => b
  | .int n => n != 0
  | .str s => !s.toList.isEmpty
  | .list xs => !xs.isEmpty
  | .dict kvs => !kvs.isEmpty

/-- Fuel-indexed model of Python `==` on JSON-like values: structural
equality, except that booleans and integers compare across types as in
Python (`True == 1`).  The fuel only bounds the recursion depth; the
wrapper `pyEqB` always supplies enough. -/
def pyEqFuel : Nat → PyVal → PyVal → Bool
  | 0, _, _ => false
  | fuel + 1, a, b =>
    match a, b with
    | .none, .none => true
    | .bool x, .bool y => x == y
    | .bool x, .int m => (if x then (1 : Int) else 0) == m
    | .int m, .bool x => m == (if x then (1 : Int) else 0)
    | .int x, .int y => x == y
    | .str x, .str y => x == y
    | .list xs, .list ys =>
      xs.length == ys.length && (xs.zip ys).all (fun p => pyEqFuel fuel p.1 p.2)
    | .dict xs, .dict ys =>
      xs.length == ys.length &&
        xs.all (fun kv =>
          match dictGet? ys kv.1 with
          | some w => pyEqFuel fuel kv.2 w
          | Option.none => false)
    | _, _ => false

/-- Python `==` on JSON-like values (see `pyEqFuel`). -/
def pyEqB (a b : PyVal) : Bool := pyEqFuel (pyRank a + 1) a b

/-- Whether the character list `pre` starts the character list `cs`. -/
def charsStartWith : List Char → List Char → Bool
  | [], _ => true
  | _ :: _, [] => false
  | p :: ps, c :: cs => p == c && charsStartWith ps cs

/-- Whether `needle` occurs contiguously inside `hay` (character lists). -/
def charsContain (hay needle : List Char) : Bool :=
  charsStartWith needle hay ||
    match hay with
    | [] => false
    | _ :: t => charsContain t needle

/-- Python `needle in hay` on strings: substring test. -/
def strContains (hay needle : String) : Bool :=
  charsContain hay.toList needle.toList

/-- Split a character list at every occurrence of the separator
character, keeping empty segments, like Python `str.split(sep)` for a
one-character separator. -/
def splitOnChar (sep : Char) : List Char → List (List Char)
  | [] => [[]]
  | c :: cs =>
    if c == sep then [] :: splitOnChar sep cs
    else
      match splitOnChar sep cs with
      | [] => [[c]]
      | seg :: rest => (c :: seg) :: rest

/-- Fuel-indexed model of Python `repr` on JSON-like values, used by
`str(expected)` inside the `contains` operator.  Escaping of quotes
inside strings is simplified; no claim depends on it. -/
def reprFuel : Nat → PyVal → String
  | 0, _ => ""
  | fuel + 1, v =>
    match v with
    | .none => "None"
    | .bool b => if b then "True" else "False"
    | .int n => toString n
    | .str s => "'" ++ s ++ "'"
    | .list xs =>
      "[" ++ String.intercalate ", " (xs.map (fun e => reprFuel fuel e)) ++ "]"
    | .dict kvs =>
      "\x7b" ++
        String.intercalate ", "
          (kvs.map (fun kv => "'" ++ kv.1 ++ "': " ++ reprFuel fuel kv.2)) ++
        "\x7d"

/-- Python `str(v)` on JSON-like values: a string is itself, containers
and scalars print as their `repr`. -/
def pyStrOf : PyVal → String
  | .str s => s
  | v => reprFuel (pyRank v + 1) v

/-- Decimal digits of a character list read as a natural number
(the characters are assumed to be ASCII digits). -/
def digitsToNat (cs : List Char) : Nat :=
  cs.foldl (fun a c => a * 10 + (c.toNat - 48)) 0

/-- Python `str.isdigit` restricted to ASCII: nonempty and all digits. -/
def pyIsDigit (s : String) : Bool :=
  !s.toList.isEmpty && s.toList.all Char.isDigit

/-- Model of Python `float(s)` on the core of its input language:
optional surrounding whitespace, an optional sign, and a decimal number
with an optional fractional part (at least one digit overall).  The
exponent, `inf` and `nan` forms are outside the modelled fragment.
Returns a rational; only success or failure of the conversion is
observable through the engine (the `gt`/`lt` operators). -/
def parsePyFloat (s : String) : Option ℚ :=
  let cs := (s.toList.dropWhile Char.isWhitespace).reverse.dropWhile Char.isWhitespace |>.reverse
  let signed : ℚ × List Char :=
    match cs with
    | '+' :: rest => (1, rest)
    | '-' :: rest => (-1, rest)
    | _ => (1, cs)
  let sign := signed.1
  let body := signed.2
  let intPart := body.takeWhile Char.isDigit
  let rest := body.dropWhile Char.isDigit
  match rest with
  | [] =>
    if intPart.isEmpty then Option.none
    else some (sign * (digitsToNat intPart : ℚ))
  | '.' :: fracPart =>
    if fracPart.all Char.isDigit && !(intPart.isEmpty && fracPart.isEmpty) then
      some (sign * ((digitsToNat intPart : ℚ) +
        (digitsToNat fracPart : ℚ) / (10 : ℚ) ^ fracPart.length))
    else Option.none
  | _ => Option.none

/-- Model of Python `float(v)` as used by the `gt`/`lt` operators:
numbers convert, booleans convert to 0/1, strings are parsed, and
everything else fails (the `TypeError` that `_compare` catches). -/
def pyFloat? : PyVal → Option ℚ
  | .int n => some (n : ℚ)
  | .bool b => some (if b then 1 else 0)
  | .str s => parsePyFloat s
  | _ => Option.none

/-!
Model of the standard-library regular expressions used by the
`matches` operator (`re.search(expected, actual)` in `_compare`).  The
pattern reader recognizes a fragment of Python's pattern language:
literal characters, escapes of non-alphanumeric characters, the dot,
grouping, alternation, the star/plus/question quantifiers, and
character classes with negation and ranges.  Constructs outside the
fragment — letter/digit escapes, escapes inside classes, extension
groups starting with a question mark, repeat braces, and lazy
quantifiers — are classified invalid rather than guessed at.  The
fragment is chosen so that every pattern the model accepts is also
accepted by Python's `re.compile`: on model-valid patterns the engine
never raises where Python would, which is the containment the totality
theorem about well-formed condition trees rests on.  The essential
behavior for the engine is that `re.search` raises `re.error` when the
pattern does not parse (an unbalanced group, an unterminated or
ill-ranged character set, a dangling escape, a quantifier with nothing
to repeat), and otherwise returns whether the pattern matches
somewhere in the subject.
-/

/-- Regular expressions over characters: the empty word, the failing
regex, any character, a literal character, a character class (a
negation flag and a list of inclusive ranges; a single member is a
one-character range), alternation, concatenation, and Kleene star. -/
inductive RE where
  | eps : RE
  | fail : RE
  | dot : RE
  | lit : Char → RE
  | cls : Bool → List (Char × Char) → RE
  | alt : RE → RE → RE
  | cat : RE → RE → RE
  | star : RE → RE
deriving Repr

/-- Whether the regex accepts the empty word. -/
def reNullable : RE → Bool
  | .eps => true
  | .fail => false
  | .dot => false
  | .lit _ => false
  | .cls _ _ => false
  | .alt a b => reNullable a || reNullable b
  | .cat a b => reNullable a && reNullable b
  | .star _ => true

/-- Brzozowski derivative of a regex by one character. -/
def reDeriv : RE → Char → RE
  | .eps, _ => .fail
  | .fail, _ => .fail
  | .dot, _ => .eps
  | .lit c, d => if c == d then .eps else .fail
  | .cls neg items, d =>
    if (items.any (fun p => p.1 ≤ d && d ≤ p.2)) != neg then .eps else .fail
  | .alt a b, d => .alt (reDeriv a d) (reDeriv b d)
  | .cat a b, d =>
    if reNullable a then .alt (.cat (reDeriv a d) b) (reDeriv b d)
    else .cat (reDeriv a d) b
  | .star r, d => .cat (reDeriv r d) (.star r)

/-- Whether the regex matches some prefix of the character list. -/
def reMatchesSomeLead (r : RE) : List Char → Bool
  | [] => reNullable r
  | c :: rest => reNullable r || reMatchesSomeLead (reDeriv r c) rest

/-- Whether the regex matches somewhere inside the character list,
like Python's `re.search` (a match may start at any position). -/
def reSearchChars (r : RE) : List Char → Bool
  | [] => reMatchesSomeLead r []
  | c :: rest => reMatchesSomeLead r (c :: rest) || reSearchChars r rest

/-- Grammar level for the fuel-indexed recursive-descent pattern
reader: alternation, concatenation, a quantified atom, or an atom. -/
inductive RELevel where
  | top : RELevel
  | seq : RELevel
  | rep : RELevel
  | atom : RELevel
deriving Repr

/-- Body of a character class, after the opening bracket and the
optional negation and leading literal bracket: members and inclusive
ranges up to the closing bracket.  As in Python, a dash directly
before the closing bracket is a literal member, a range with its lower
end above its upper end is rejected ("bad character range"), and a
missing closing bracket is rejected ("unterminated character set").
Escapes inside classes are outside the modelled fragment and are
rejected (Python accepts some of them; rejecting keeps every
model-accepted pattern Python-accepted). -/
def readClassItems : List Char → List (Char × Char) →
    Option (List (Char × Char) × List Char)
  | [], _ => Option.none
  | ']' :: rest, acc => some (acc, rest)
  | '\\' :: _, _ => Option.none
  | c :: '-' :: ']' :: rest, acc => some (acc ++ [(c, c), ('-', '-')], rest)
  | c :: '-' :: d :: rest, acc =>
    if d == '\\' then Option.none
    else if c ≤ d then readClassItems rest (acc ++ [(c, d)])
    else Option.none
  | c :: rest, acc => readClassItems rest (acc ++ [(c, c)])

/-- Start of a character class, directly after the opening bracket: an
optional negating caret, then — as in Python — a closing bracket in
the first member position is a literal member, not a terminator. -/
def readClassStart (cs : List Char) :
    Option (Bool × List (Char × Char) × List Char) :=
  match cs with
  | '^' :: ']' :: rest =>
    (readClassItems rest [(']', ']')]).map (fun p => (true, p.1, p.2))
  | '^' :: rest =>
    (readClassItems rest []).map (fun p => (true, p.1, p.2))
  | ']' :: rest =>
    (readClassItems rest [(']', ']')]).map (fun p => (false, p.1, p.2))
  | rest =>
    (readClassItems rest []).map (fun p => (false, p.1, p.2))

/-- Fuel-indexed recursive-descent reader for the modelled pattern
fragment.  Returns the parsed regex and the unread rest, or `none`
when the pattern is invalid — for Python that is the `re.error` case:
an unbalanced group, an unterminated or ill-ranged character class, a
dangling escape, or a quantifier with nothing to repeat — or when the
pattern uses a construct outside the modelled fragment (an
alphanumeric escape, an extension group, a repeat brace, a lazy
quantifier), which the model rejects so that it never accepts a
pattern Python's `re.compile` rejects. -/
def readRE : Nat → RELevel → List Char → Option (RE × List Char)
  | 0, _, _ => Option.none
  | fuel + 1, .top, cs =>
    match readRE fuel .seq cs with
    | some (r, '|' :: rest) =>
      match readRE fuel .top rest with
      | some (r2, rest2) => some (.alt r r2, rest2)
      | Option.none => Option.none
    | some (r, rest) => some (r, rest)
    | Option.none => Option.none
  | fuel + 1, .seq, cs =>
    match cs with
    | [] => some (.eps, [])
    | ')' :: _ => some (.eps, cs)
    | '|' :: _ => some (.eps, cs)
    | _ =>
      match readRE fuel .rep cs with
      | some (r, rest) =>
        match readRE fuel .seq rest with
        | some (r2, rest2) => some (.cat r r2, rest2)
        | Option.none => Option.none
      | Option.none => Option.none
  | fuel + 1, .rep, cs =>
    match readRE fuel .atom cs with
    | some (r, '*' :: rest) => some (.star r, rest)
    | some (r, '+' :: rest) => some (.cat r (.star r), rest)
    | some (r, '?' :: rest) => some (.alt r .eps, rest)
    | some (r, rest) => some (r, rest)
    | Option.none => Option.none
  | fuel + 1, .atom, cs =>
    match cs with
    | [] => Option.none
    | '(' :: rest =>
      match readRE fuel .top rest with
      | some (r, ')' :: rest2) => some (r, rest2)
      | _ => Option.none
    | '.' :: rest => some (.dot, rest)
    | '[' :: rest =>
      match readClassStart rest with
      | some (neg, items, rest2) => some (.cls neg items, rest2)
      | Option.none => Option.none
    | '\\' :: c :: rest =>
      if c.isAlphanum then Option.none else some (.lit c, rest)
    | '\\' :: [] => Option.none
    | ')' :: _ => Option.none
    | '|' :: _ => Option.none
    | '*' :: _ => Option.none
    | '+' :: _ => Option.none
    | '?' :: _ => Option.none
    | c :: rest =>
      if c.toNat == 123 then Option.none else some (.lit c, rest)

/-- Parse a whole pattern; `none` covers exactly the patterns the
model does not accept: every pattern this returns a regex for is also
accepted by Python, and `none` is the case in which the model raises
`re.error` (for patterns inside the fragment this coincides with
Python; patterns outside the fragment are conservatively rejected). -/
def reParse (pattern : String) : Option RE :=
  match readRE (8 * (pattern.toList.length + 2)) .top pattern.toList with
  | some (r, []) => some r
  | _ => Option.none

/-- Model of `re.search(pattern, s)`: raises `re.error` (an error
result) when the pattern is invalid, otherwise reports whether the
pattern matches somewhere in `s`. -/
def reSearch (pattern s : String) : Except String Bool :=
  match reParse pattern with
  | Option.none => .error ("re.error: invalid pattern " ++ pattern)
  | some r => .ok (reSearchChars r s.toList)

/-!
The trigger condition evaluator, from
`src/backend/app/engine/triggers.py`.
-/

/-- Model of `TriggerHandler._resolve_field`'s loop over the dot-split
path segments: a segment against a dictionary is a `get` (absent keys
resolve to `None` and the walk continues); a digit segment against a
list indexes it, out of range resolving to `None`; any other
combination returns `None` immediately. -/
def resolveParts : List String → PyVal → PyVal
  | [], cur => cur
  | p :: rest, cur =>
    match cur with
    | .dict kvs => resolveParts rest ((dictGet? kvs p).getD .none)
    | .list xs =>
      if pyIsDigit p then resolveParts rest (xs.getD (digitsToNat p.toList) .none)
      else .none
    | _ => .none

/-- Model of `TriggerHandler._resolve_field`: split the field path at
dots and walk the nested value. -/
def resolveField (fieldPath : String) (data : PyVal) : PyVal :=
  resolveParts ((splitOnChar '.' fieldPath.toList).map String.mk) data

/-- Model of `TriggerHandler._compare`: dispatch on the operator name
(any non-string or unknown operator falls through to `False`).  Only
the `matches` operator can raise, through `reSearch` on an invalid
pattern. -/
def pyCompare (op actual expected : PyVal) : Except String Bool :=
  if pyEqB op (.str "eq") then .ok (pyEqB actual expected)
  else if pyEqB op (.str "ne") then .ok (!pyEqB actual expected)
  else if pyEqB op (.str "contains") then
    .ok (match actual with
         | .str a => strContains a (pyStrOf expected)
         | .list xs => xs.any (fun e => pyEqB expected e)
         | _ => false)
  else if pyEqB op (.str "in") then
    .ok (match expected with
         | .list xs => xs.any (fun e => pyEqB actual e)
         | _ => false)
  else if pyEqB op (.str "matches") then
    match actual, expected with
    | .str a, .str p => reSearch p a
    | _, _ => .ok false
  else if pyEqB op (.str "gt") then
    .ok (match pyFloat? actual, pyFloat? expected with
         | some x, some y => decide (y < x)
         | _, _ => false)
  else if pyEqB op (.str "lt") then
    .ok (match pyFloat? actual, pyFloat? expected with
         | some x, some y => decide (x < y)
         | _, _ => false)
  else if pyEqB op (.str "exists") then
    .ok ((match actual with | .none => false | _ => true) == pyTruthy expected)
  else .ok false

/-- Model of Python iteration over a value, as used by the `all(...)`
and `any(...)` generator expressions: a list yields its elements, a
dictionary yields its keys, a string yields its characters as
one-character strings, and anything else raises `TypeError`. -/
def pyIterVals : PyVal → Except String (List PyVal)
  | .list xs => .ok xs
  | .dict kvs => .ok (kvs.map (fun kv => PyVal.str kv.1))
  | .str s => .ok (s.toList.map (fun ch => PyVal.str (String.singleton ch)))
  | _ => .error "TypeError: argument of type is not iterable"

/-- Short-circuiting `all` (when `isAll` is true) or `any` (when it is
false) over a list of sub-evaluations, mirroring Python's lazy
`all(...)`/`any(...)` over a generator: evaluation stops at the first
deciding element or the first raised exception. -/
def evalSeqFuel (ev : PyVal → Except String Bool) (isAll : Bool) :
    List PyVal → Except String Bool
  | [] => .ok isAll
  | e :: rest =>
    match ev e with
    | .error m => .error m
    | .ok b => if b == isAll then evalSeqFuel ev isAll rest else .ok (!isAll)

/-- Fuel-indexed model of `TriggerHandler._evaluate_conditions`.  On a
dictionary: an `all` key evaluates the conjunction of the iterated
value, an `any` key the disjunction; otherwise the leaf fields are read
with `get` (so a missing `field` is `None` and passes, a missing
`operator` defaults to `eq`, a missing `value` is `None`).  On any
other value the code raises: the membership tests `"all" in c` /
`"any" in c` work on lists and strings but the following subscript or
`.get` raises `TypeError`/`AttributeError`, and membership itself
raises `TypeError` on non-iterables. -/
def evalFuel : Nat → PyVal → PyVal → Except String Bool
  | 0, _, _ => .error "RecursionError: maximum recursion depth exceeded"
  | fuel + 1, conds, data =>
    match conds with
    | .dict kvs =>
      match dictGet? kvs "all" with
      | some v =>
        (match pyIterVals v with
         | .error m => .error m
         | .ok elems => evalSeqFuel (fun e => evalFuel fuel e data) true elems)
      | Option.none =>
      match dictGet? kvs "any" with
      | some v =>
        (match pyIterVals v with
         | .error m => .error m
         | .ok elems => evalSeqFuel (fun e => evalFuel fuel e data) false elems)
      | Option.none =>
        match (dictGet? kvs "field").getD .none with
        | .none => .ok true
        | .str fieldPath =>
          pyCompare ((dictGet? kvs "operator").getD (.str "eq"))
            (resolveField fieldPath data)
            ((dictGet? kvs "value").getD .none)
        | _ => .error "AttributeError: object has no attribute split"
    | .list xs =>
      if xs.any (fun e => pyEqB e (.str "all")) then
        .error "TypeError: list indices must be integers or slices, not str"
      else if xs.any (fun e => pyEqB e (.str "any")) then
        .error "TypeError: list indices must be integers or slices, not str"
      else .error "AttributeError: list object has no attribute get"
    | .str s =>
      if strContains s "all" then .error "TypeError: string indices must be integers"
      else if strContains s "any" then .error "TypeError: string indices must be integers"
      else .error "AttributeError: str object has no attribute get"
    | _ => .error "TypeError: argument of type is not iterable"

/-- Model of `TriggerHandler._evaluate_conditions` (see `evalFuel`;
the fuel `pyRank conds + 1` always suffices). -/
def evalConds (conds data : PyVal) : Except String Bool :=
  evalFuel (pyRank conds + 1) conds data

/-!
The trigger matcher, `TriggerHandler.evaluate_trigger`.
-/

/-- A trigger row (`app.models.workflow.Trigger`): source tag, event
type, and the optional condition tree (`None` is `PyVal.none`). -/
structure Trigger where
  source : String
  event_type : String
  conditions : PyVal
deriving Repr, Inhabited

/-- Model of `TriggerHandler.evaluate_trigger`: the source gate (a
truthy event `source` differing from the trigger's source fails the
match), then the event-type gate, then the condition tree (a falsy
tree — `None` or an empty dictionary — matches unconditionally).
Exceptions escaping the condition evaluator propagate. -/
def evaluateTrigger (trigger : Trigger) (eventData : PyDict) : Except String Bool :=
  let eventSource := (dictGet? eventData "source").getD (.str "")
  if pyTruthy eventSource && !pyEqB eventSource (.str trigger.source) then .ok false
  else
    let eventType := (dictGet? eventData "event_type").getD (.str "")
    if pyTruthy eventType && !pyEqB eventType (.str trigger.event_type) then .ok false
    else
      let conditions := if pyTruthy trigger.conditions then trigger.conditions else .dict []
      if !pyTruthy conditions then .ok true
      else evalConds conditions (.dict eventData)

/-!
The workflow executor, `WorkflowExecutor.execute_workflow`.
-/

/-- An action row (`app.models.workflow.Action`): the handler-selecting
action type, the parameter bag (`None` is `Option.none`), and the sort
position. -/
structure Action where
  action_type : String
  parameters : Option PyDict
  sort_order : Int
deriving Repr, Inhabited

/-- A workflow row with its owned triggers and actions
(`app.models.workflow.Workflow`). -/
structure Workflow where
  name : String
  enabled : Bool
  triggers : List Trigger
  actions : List Action
deriving Repr, Inhabited

/-- An execution log record (`app.models.log.WorkflowLog`): the columns
the executor writes.  `output_data` and `error_message` are nullable
and default to `None`. -/
structure WorkflowLog where
  workflow_id : String
  status : String
  input_data : PyDict
  output_data : Option PyVal
  error_message : Option String
deriving Repr, Inhabited

/-- The log record the executor creates at the start of a run:
status `running`, the input event recorded, nothing else set. -/
def initialLog (workflowId : String) (triggerData : PyDict) : WorkflowLog :=
  { workflow_id := workflowId
    status := "running"
    input_data := triggerData
    output_data := Option.none
    error_message := Option.none }

/-- The trigger loop in `execute_workflow`: evaluate the triggers in
stored order and stop at the first match; an exception from
`evaluate_trigger` propagates. -/
def firstTriggerMatch (triggers : List Trigger) (eventData : PyDict) :
    Except String Bool :=
  match triggers with
  | [] => .ok false
  | t :: rest =>
    match evaluateTrigger t eventData with
    | .error m => .error m
    | .ok true => .ok true
    | .ok false => firstTriggerMatch rest eventData

/-- Insert an action into an already sorted list, before the first
action with a strictly larger sort key (keeping earlier equal-key
actions in front, as Python's stable `sorted` does). -/
def insertBySortOrder (a : Action) : List Action → List Action
  | [] => [a]
  | b :: rest =>
    if b.sort_order < a.sort_order then b :: insertBySortOrder a rest
    else a :: b :: rest

/-- Model of `sorted(workflow.actions, key=lambda a: a.sort_order)`:
a stable ascending sort by `sort_order`. -/
def sortActions (actions : List Action) : List Action :=
  actions.foldr insertBySortOrder []

/-- Write one key into a dictionary: overwrite the existing binding in
place, or append a new binding, as Python `d[k] = v` does. -/
def dictSet (d : PyDict) (k : String) (v : PyVal) : PyDict :=
  if d.any (fun kv => kv.1 == k) then
    d.map (fun kv => if kv.1 == k then (k, v) else kv)
  else d ++ [(k, v)]

/-- Python `d.update(other)`: write every binding of `other` into `d`
in order, later keys overwriting earlier ones with the same name. -/
def dictUpdate (d other : PyDict) : PyDict :=
  other.foldl (fun acc kv => dictSet acc kv.1 kv.2) d

/-- One action handler invocation, as seen by the executor.  The
oracle stands for `ActionRunner.run_action` together with the external
connectors behind it: given the action and the current context it
either raises (an unknown action type or a failed external operation)
or returns the handler's result dictionary paired with the context as
the handler may have mutated it (for example `download_document`
writes `file_content` and `filename` into the context directly). -/
abbrev ActionOracle := Action → PyDict → Except String (PyDict × PyDict)

/-- The action loop in `execute_workflow`: run the actions in order,
appending an entry with the action type and the result
to the ordered results list and merging each result into the shared
context before the next action runs; the first exception aborts the
loop. -/
def runActionsLoop (runAction : ActionOracle) :
    List Action → PyDict → List PyVal → Except String (List PyVal × PyDict)
  | [], ctx, acc => .ok (acc, ctx)
  | a :: rest, ctx, acc =>
    match runAction a ctx with
    | .error m => .error m
    | .ok (res, ctxMut) =>
      runActionsLoop runAction rest (dictUpdate ctxMut res)
        (acc ++ [PyVal.dict [("action_type", PyVal.str a.action_type),
                             ("result", PyVal.dict res)]])

/-- The tail of `execute_workflow` once a trigger matched (or no
triggers exist): run the sorted actions; on success finish `success`
with the ordered results list as the output, on an exception finish
`error` with its message. -/
def runPhase (runAction : ActionOracle) (acts : List Action)
    (log0 : WorkflowLog) (ctx0 : PyDict) : WorkflowLog :=
  match runActionsLoop runAction acts ctx0 [] with
  | .error m => { log0 with status := "error", error_message := some m }
  | .ok (results, _) =>
    { log0 with status := "success",
                output_data := some (.dict [("actions", .list results)]) }

/-- Model of `WorkflowExecutor.execute_workflow`.  The database query
result is the `findWorkflow` argument (the external session is a
collaborator); the action handlers are the `runAction` oracle.  The
body mirrors the `try`/`except` structure of the source: a missing
workflow raises `ValueError` which the handler turns into an `error`
log; a disabled workflow and an unmatched trigger list finish
`skipped`; any exception from trigger evaluation or an action handler
finishes `error` with the exception's message, leaving `output_data`
unset. -/
def executeWorkflow (findWorkflow : Option Workflow) (runAction : ActionOracle)
    (workflowId : String) (triggerData : PyDict) : WorkflowLog :=
  let log0 := initialLog workflowId triggerData
  match findWorkflow with
  | Option.none =>
    { log0 with status := "error",
                error_message := some ("Workflow " ++ workflowId ++ " not found") }
  | some w =>
    if !w.enabled then
      { log0 with status := "skipped",
                  output_data := some (.dict [("reason", .str "Workflow is disabled")]) }
    else
      match firstTriggerMatch w.triggers triggerData with
      | .error m => { log0 with status := "error", error_message := some m }
      | .ok matched =>
        if !matched && !w.triggers.isEmpty then
          { log0 with status := "skipped",
                      output_data := some (.dict [("reason", .str "No trigger matched")]) }
        else
          runPhase runAction (sortActions w.actions) log0 triggerData

/-!
The tag-document action handler, `ActionRunner._set_tag`.
-/

/-- Observable outcome of `ActionRunner._set_tag` up to the external
call: either the non-fatal early return (no external operation is
performed), or a call to the connector's `add_tag_to_document` with the
resolved document and tag values (the handler then wraps the
operation's response in its `tagged: True` result). -/
inductive TagOutcome where
  | notTagged (reason : String) : TagOutcome
  | tagCall (documentId tagId : PyVal) : TagOutcome
deriving Repr

/-- Model of `ActionRunner._set_tag`'s local logic: the document id is
read from the parameter bag and falls back to the context when the
parameter is missing or falsy (`params.get("document_id") or
context.get("document_id", 0)`); the tag id is read from the parameter
bag only (`params.get("tag_id", 0)`).  When either resolved value is
falsy the handler returns the non-fatal result
`tagged: False, reason: "Missing document_id or tag_id"` without
calling the external operation. -/
def setTag (parameters : Option PyDict) (context : PyDict) : TagOutcome :=
  let params := parameters.getD []
  let fromParams := (dictGet? params "document_id").getD .none
  let documentId :=
    if pyTruthy fromParams then fromParams
    else (dictGet? context "document_id").getD (.int 0)
  let tagId := (dictGet? params "tag_id").getD (.int 0)
  if !pyTruthy documentId || !pyTruthy tagId then
    .notTagged "Missing document_id or tag_id"
  else .tagCall documentId tagId

/-!
Well-formedness of condition trees, used to state on which trees the
evaluator is total.  This follows the condition grammar of the
specification: a tree is a dictionary that is either a composite whose
`all`/`any` value is a list of well-formed trees, or a leaf whose
`field` is absent, `None`, or a string; and a `matches` leaf must
carry a pattern the model's reader accepts.  Since every pattern the
reader accepts is also accepted by Python's `re.compile` (the reader
rejects both invalid patterns and fragment-external constructs), a
well-formed tree never reaches a raising `re.search` in the program,
which is what totality on well-formed trees needs; patterns outside
the modelled fragment are simply excluded from well-formedness.
-/

/-- Whether a leaf's operator/value pair cannot raise: only the
`matches` operator can raise, and only when its expected value is a
string whose pattern the model's reader does not accept. -/
def matchesSafe (op expected : PyVal) : Bool :=
  if pyEqB op (.str "matches") then
    match expected with
    | .str p => (reParse p).isSome
    | _ => true
  else true

/-- Fuel-indexed well-formedness of a condition tree (see the section
comment); the wrapper `wellFormedCond` always supplies enough fuel. -/
def wfFuel : Nat → PyVal → Bool
  | 0, _ => false
  | fuel + 1, c =>
    match c with
    | .dict kvs =>
      match dictGet? kvs "all" with
      | some (.list xs) => xs.all (fun e => wfFuel fuel e)
      | some _ => false
      | Option.none =>
      match dictGet? kvs "any" with
      | some (.list xs) => xs.all (fun e => wfFuel fuel e)
      | some _ => false
      | Option.none =>
        match dictGet? kvs "field" with
        | Option.none => true
        | some .none => true
        | some (.str _) =>
          matchesSafe ((dictGet? kvs "operator").getD (.str "eq"))
            ((dictGet? kvs "value").getD .none)
        | some _ => false
    | _ => false

/-- Well-formedness of a condition tree (see `wfFuel`). -/
def wellFormedCond (c : PyVal) : Bool := wfFuel (pyRank c + 1) c

/-!
Helper lemmas.
-/

/-- Every JSON-like value has positive rank. -/
theorem pyRank_pos (v : PyVal) : 0 < pyRank v := by
  cases v <;> simp [pyRank]

/-- A value found by dictionary lookup is structurally smaller than the
dictionary. -/
theorem dictGet?_rank {kvs : PyDict} {k : String} {v : PyVal}
    (h : dictGet? kvs k = some v) : pyRank v < pyRank (PyVal.dict kvs) := by
  induction kvs with
  | nil => simp [dictGet?] at h
  | cons hd tl ih =>
    obtain ⟨k1, v1⟩ := hd
    simp only [dictGet?] at h
    by_cases hk : (k1 == k) = true
    · rw [if_pos hk] at h
      cases h
      simp [pyRank, pyRankKVs]
      omega
    · rw [if_neg hk] at h
      have := ih h
      simp [pyRank, pyRankKVs] at this ⊢
      omega

/-- An element of a list is structurally smaller than the list value. -/
theorem mem_rank {xs : List PyVal} {e : PyVal} (h : e ∈ xs) :
    pyRank e < pyRank (PyVal.list xs) := by
  induction xs with
  | nil => cases h
  | cons hd tl ih =>
    rcases List.mem_cons.mp h with h | h
    · subst h
      simp [pyRank, pyRankSeq]
      omega
    · have := ih h
      simp [pyRank, pyRankSeq] at this ⊢
      omega

/-- Resolving any remaining path segments against `None` yields `None`
(the loop keeps going but every later step is the fall-through case). -/
theorem resolveParts_none (parts : List String) :
    resolveParts parts .none = .none := by
  cases parts <;> simp [resolveParts]

/-!
Claim theorems for the condition evaluator and field resolution.
-/

/-- C6: field resolution of a dot-separated path against nested
mappings and sequences.  On the data `a → b → [10, 20]` the path
`a.b.1` resolves to `20`, `a.b.5` to absent, and `a.c` to absent; in
general a digit segment indexes a sequence (in range it steps into the
element, out of range the walk degenerates to absent), a non-digit
segment against a sequence is absent, and any segment against a
non-mapping, non-sequence value is absent. -/
theorem resolveField_spec (p : String) (rest : List String) (xs : List PyVal)
    (v : PyVal) :
    resolveField "a.b.1" (.dict [("a", .dict [("b", .list [.int 10, .int 20])])]) =
      .int 20 ∧
    resolveField "a.b.5" (.dict [("a", .dict [("b", .list [.int 10, .int 20])])]) =
      .none ∧
    resolveField "a.c" (.dict [("a", .dict [("b", .list [.int 10, .int 20])])]) =
      .none ∧
    (pyIsDigit p = true → digitsToNat p.toList < xs.length →
      resolveParts (p :: rest) (.list xs) =
        resolveParts rest (xs.getD (digitsToNat p.toList) .none)) ∧
    (pyIsDigit p = true → xs.length ≤ digitsToNat p.toList →
      resolveParts (p :: rest) (.list xs) = .none) ∧
    (pyIsDigit p = false → resolveParts (p :: rest) (.list xs) = .none) ∧
    ((match v with
      | .dict _ => False
      | .list _ => False
      | _ => True) → resolveParts (p :: rest) v = .none) := by
  refine ⟨rfl, rfl, rfl, ?_, ?_, ?_, ?_⟩
  · intro hd _
    simp [resolveParts, hd]
  · intro hd hlen
    have hstep : resolveParts (p :: rest) (.list xs) =
        resolveParts rest (xs.getD (digitsToNat p.toList) .none) := by
      simp [resolveParts, hd]
    rw [hstep, List.getD_eq_default _ _ hlen]
    exact resolveParts_none rest
  · intro hd
    simp [resolveParts, hd]
  · intro hv
    cases v <;> simp_all [resolveParts]

/-- C6 witness: the general clauses at concrete inputs. -/
theorem resolveField_spec_witness :
    resolveParts ["1"] (.list [.int 7, .int 8]) =
      resolveParts [] ([PyVal.int 7, PyVal.int 8].getD (digitsToNat "1".toList) .none) ∧
    resolveParts ["5"] (.list [.int 7, .int 8]) = .none ∧
    resolveParts ["k"] (.list [.int 7, .int 8]) = .none ∧
    resolveParts ["k"] (.int 3) = .none := by
  refine ⟨?_, ?_, ?_, ?_⟩
  · exact (resolveField_spec "1" [] [.int 7, .int 8] (.int 3)).2.2.2.1
      (by decide) (by decide)
  · exact (resolveField_spec "5" [] [.int 7, .int 8] (.int 3)).2.2.2.2.1
      (by decide) (by decide)
  · exact (resolveField_spec "k" [] [.int 7, .int 8] (.int 3)).2.2.2.2.2.1
      (by decide)
  · exact (resolveField_spec "k" [] [.int 7, .int 8] (.int 3)).2.2.2.2.2.2
      (by trivial)

/-- C7: a leaf condition that is not an `all`/`any` composite and has
no `field` key evaluates to true (the quirky permissive default for
malformed leaves), for every event payload. -/
theorem evalConds_missing_field_true (kvs : PyDict) (data : PyVal)
    (hall : dictGet? kvs "all" = Option.none)
    (hany : dictGet? kvs "any" = Option.none)
    (hfield : dictGet? kvs "field" = Option.none) :
    evalConds (.dict kvs) data = .ok true := by
  simp [evalConds, evalFuel, hall, hany, hfield]

/-- C7 witness: a leaf carrying only an operator and a value still
passes. -/
theorem evalConds_missing_field_true_witness :
    evalConds (.dict [("operator", .str "gt"), ("value", .int 3)]) (.dict []) =
      .ok true :=
  evalConds_missing_field_true [("operator", .str "gt"), ("value", .int 3)]
    (.dict []) rfl rfl rfl

/-- C8: for every event payload, the empty conjunction evaluates to
true and the empty disjunction evaluates to false. -/
theorem evalConds_empty_composites (data : PyVal) :
    evalConds (.dict [("all", .list [])]) data = .ok true ∧
    evalConds (.dict [("any", .list [])]) data = .ok false := by
  constructor <;> rfl

/-- C10: a leaf with a `field` key (a field path) but no `operator`
key applies the `eq` operator: the result is the Python equality of
the resolved value and the expected value, not the unknown-operator
`False` branch. -/
theorem evalConds_default_operator_eq (kvs : PyDict) (data : PyVal)
    (fieldPath : String)
    (hall : dictGet? kvs "all" = Option.none)
    (hany : dictGet? kvs "any" = Option.none)
    (hfield : dictGet? kvs "field" = some (.str fieldPath))
    (hop : dictGet? kvs "operator" = Option.none) :
    evalConds (.dict kvs) data =
      .ok (pyEqB (resolveField fieldPath data)
        ((dictGet? kvs "value").getD .none)) := by
  have hcmp : ∀ actual expected,
      pyCompare (.str "eq") actual expected = .ok (pyEqB actual expected) :=
    fun _ _ => rfl
  simp [evalConds, evalFuel, hall, hany, hfield, hop, hcmp]

/-- C10 witness: a leaf with only `field` and `value` compares with
`eq`. -/
theorem evalConds_default_operator_eq_witness :
    evalConds (.dict [("field", .str "x"), ("value", .int 5)])
        (.dict [("x", .int 5)]) =
      .ok (pyEqB (resolveField "x" (.dict [("x", .int 5)]))
        ((dictGet? [("field", .str "x"), ("value", .int 5)] "value").getD .none)) :=
  evalConds_default_operator_eq [("field", .str "x"), ("value", .int 5)]
    (.dict [("x", .int 5)]) "x" rfl rfl rfl rfl

/-!
Claim theorems for the trigger matcher.
-/

/-- C5 counterexample: an event whose `source` field is present with
the value `""`, which differs from the trigger's source `"paperless"`,
still matches — the gate only fires for truthy values, so a present
falsy `source` is treated like an absent one, contradicting the claim
that a present, differing `source` never matches. -/
theorem evaluateTrigger_empty_source_matches :
    dictGet? [("source", PyVal.str "")] "source" = some (.str "") ∧
    pyEqB (.str "") (.str "paperless") = false ∧
    evaluateTrigger { source := "paperless", event_type := "document_created",
                      conditions := .none }
      [("source", PyVal.str "")] = .ok true := by
  refine ⟨rfl, by decide, by decide⟩

/-- C5 amended: the source gate fires only when the event's `source`
value is truthy and differs (by Python equality) from the trigger's
source; symmetrically for `event_type`; when both gates pass and the
trigger's condition tree is falsy (`None` or empty), the trigger
matches; and when both gates pass and the condition tree is truthy,
matching is delegated to the condition evaluator on the tree against
the full event payload.  Absent fields read as `""`, which is falsy,
so a present but falsy field value behaves like an absent one. -/
theorem evaluateTrigger_gates (t : Trigger) (ev : PyDict) :
    (pyTruthy ((dictGet? ev "source").getD (.str "")) = true →
      pyEqB ((dictGet? ev "source").getD (.str "")) (.str t.source) = false →
      evaluateTrigger t ev = .ok false) ∧
    ((pyTruthy ((dictGet? ev "source").getD (.str "")) = false ∨
        pyEqB ((dictGet? ev "source").getD (.str "")) (.str t.source) = true) →
      pyTruthy ((dictGet? ev "event_type").getD (.str "")) = true →
      pyEqB ((dictGet? ev "event_type").getD (.str "")) (.str t.event_type) = false →
      evaluateTrigger t ev = .ok false) ∧
    ((pyTruthy ((dictGet? ev "source").getD (.str "")) = false ∨
        pyEqB ((dictGet? ev "source").getD (.str "")) (.str t.source) = true) →
      (pyTruthy ((dictGet? ev "event_type").getD (.str "")) = false ∨
        pyEqB ((dictGet? ev "event_type").getD (.str "")) (.str t.event_type) = true) →
      pyTruthy t.conditions = false →
      evaluateTrigger t ev = .ok true) ∧
    ((pyTruthy ((dictGet? ev "source").getD (.str "")) = false ∨
        pyEqB ((dictGet? ev "source").getD (.str "")) (.str t.source) = true) →
      (pyTruthy ((dictGet? ev "event_type").getD (.str "")) = false ∨
        pyEqB ((dictGet? ev "event_type").getD (.str "")) (.str t.event_type) = true) →
      pyTruthy t.conditions = true →
      evaluateTrigger t ev = evalConds t.conditions (.dict ev)) := by
  have hgate : ∀ v : PyVal, ∀ s : String,
      pyTruthy v = false ∨ pyEqB v (.str s) = true →
      (pyTruthy v && !pyEqB v (.str s)) = false := by
    intro v s h
    rcases h with h | h <;> simp [h]
  refine ⟨?_, ?_, ?_, ?_⟩
  · intro h1 h2
    simp [evaluateTrigger, h1, h2]
  · intro hpass h1 h2
    rcases hpass with h | h <;> simp [evaluateTrigger, h, h1, h2]
  · intro hs he hc
    simp only [evaluateTrigger]
    rw [hgate _ _ hs]
    simp only [Bool.false_eq_true, if_false]
    rw [hgate _ _ he]
    have h0 : pyTruthy (PyVal.dict []) = false := rfl
    simp [hc, h0]
  · intro hs he hc
    simp only [evaluateTrigger]
    rw [hgate _ _ hs]
    simp only [Bool.false_eq_true, if_false]
    rw [hgate _ _ he]
    simp [hc]

/-- C5 amended witness: the four clauses at concrete triggers and
events — a truthy differing source, a truthy differing event type, a
match with a falsy condition tree, and delegation to the condition
evaluator for a truthy condition tree. -/
theorem evaluateTrigger_gates_witness :
    evaluateTrigger { source := "paperless", event_type := "document_created",
                      conditions := .none }
      [("source", PyVal.str "lexoffice")] = .ok false ∧
    evaluateTrigger { source := "paperless", event_type := "document_created",
                      conditions := .none }
      [("source", PyVal.str "paperless"), ("event_type", PyVal.str "other")] =
      .ok false ∧
    evaluateTrigger { source := "paperless", event_type := "document_created",
                      conditions := .none }
      [("source", PyVal.str "paperless"),
       ("event_type", PyVal.str "document_created")] = .ok true ∧
    evaluateTrigger { source := "paperless", event_type := "document_created",
                      conditions := .dict [("field", .str "document_id"),
                                           ("operator", .str "eq"),
                                           ("value", .int 42)] }
      [("source", PyVal.str "paperless"),
       ("event_type", PyVal.str "document_created"),
       ("document_id", PyVal.int 42)] =
      evalConds (.dict [("field", .str "document_id"),
                        ("operator", .str "eq"), ("value", .int 42)])
        (.dict [("source", PyVal.str "paperless"),
                ("event_type", PyVal.str "document_created"),
                ("document_id", PyVal.int 42)]) := by
  refine ⟨?_, ?_, ?_, ?_⟩
  · exact (evaluateTrigger_gates _ _).1 (by decide) (by decide)
  · exact (evaluateTrigger_gates _ _).2.1 (Or.inr (by decide)) (by decide) (by decide)
  · exact (evaluateTrigger_gates _ _).2.2.1 (Or.inr (by decide)) (Or.inr (by decide))
      (by decide)
  · exact (evaluateTrigger_gates _ _).2.2.2 (Or.inr (by decide)) (Or.inr (by decide))
      (by decide)

/-!
Claim theorems for the tag-document action handler.
-/

/-- C9 counterexample: with an empty parameter bag and a context that
carries both a truthy `document_id` and a truthy `tag_id`, the handler
still returns the non-fatal "not tagged" result — the tag id is never
read from the context, contradicting the claim that both ids fall back
to the context. -/
theorem setTag_ignores_context_tag_id :
    dictGet? [("document_id", PyVal.int 5), ("tag_id", PyVal.int 7)] "tag_id" =
      some (.int 7) ∧
    pyTruthy (.int 7) = true ∧
    setTag (some []) [("document_id", PyVal.int 5), ("tag_id", PyVal.int 7)] =
      .notTagged "Missing document_id or tag_id" := by
  refine ⟨rfl, by decide, rfl⟩

/-- C9 amended: the document id is read from the parameters with
fallback to the context (a truthy parameter value overrides the
context, a missing or falsy one falls back); the tag id is read from
the parameters only — the context is never consulted for it; and
whenever either resolved id is missing or falsy the handler returns
the non-fatal "not tagged" result without calling the external
add-tag-to-document operation.  The four clauses characterize every
case: a missing or falsy tag id parameter is non-fatal for every
context; a document id that is missing or falsy in both the parameters
and the context is non-fatal for every tag id; a truthy parameter
document id overrides the context; a missing or falsy parameter
document id falls back to a truthy context document id. -/
theorem setTag_spec (params ctx : PyDict) (u v w : PyVal) :
    (pyTruthy ((dictGet? params "tag_id").getD (.int 0)) = false →
      setTag (some params) ctx = .notTagged "Missing document_id or tag_id") ∧
    (pyTruthy ((dictGet? params "document_id").getD .none) = false →
      pyTruthy ((dictGet? ctx "document_id").getD (.int 0)) = false →
      setTag (some params) ctx = .notTagged "Missing document_id or tag_id") ∧
    (dictGet? params "document_id" = some u → pyTruthy u = true →
      dictGet? params "tag_id" = some v → pyTruthy v = true →
      setTag (some params) ctx = .tagCall u v) ∧
    (pyTruthy ((dictGet? params "document_id").getD .none) = false →
      dictGet? ctx "document_id" = some w → pyTruthy w = true →
      dictGet? params "tag_id" = some v → pyTruthy v = true →
      setTag (some params) ctx = .tagCall w v) := by
  refine ⟨?_, ?_, ?_, ?_⟩
  · intro htag
    by_cases hfp : pyTruthy ((dictGet? params "document_id").getD .none) = true
    · simp [setTag, htag, hfp]
    · simp [setTag, htag, hfp]
  · intro hfp hctx
    simp [setTag, hfp, hctx]
  · intro hdoc hu htag htv
    simp [setTag, hdoc, hu, htag, htv]
  · intro hfp hctx hw htag htv
    simp [setTag, hfp, hctx, hw, htag, htv]

/-- C9 amended witness: the four clauses at concrete parameter bags
and contexts — a present but falsy tag id with both ids truthy in the
context, a falsy document id everywhere with a truthy tag id, a
parameter document id overriding the context, and a falsy parameter
document id falling back to the context. -/
theorem setTag_spec_witness :
    setTag (some [("tag_id", PyVal.int 0)])
      [("document_id", PyVal.int 5), ("tag_id", PyVal.int 7)] =
      .notTagged "Missing document_id or tag_id" ∧
    setTag (some [("document_id", PyVal.int 0), ("tag_id", PyVal.int 9)]) [] =
      .notTagged "Missing document_id or tag_id" ∧
    setTag (some [("document_id", PyVal.int 3), ("tag_id", PyVal.int 7)])
      [("document_id", PyVal.int 5)] = .tagCall (.int 3) (.int 7) ∧
    setTag (some [("document_id", PyVal.int 0), ("tag_id", PyVal.int 7)])
      [("document_id", PyVal.int 5)] = .tagCall (.int 5) (.int 7) := by
  refine ⟨?_, ?_, ?_, ?_⟩
  · exact (setTag_spec [("tag_id", PyVal.int 0)]
      [("document_id", PyVal.int 5), ("tag_id", PyVal.int 7)]
      .none .none .none).1 (by decide)
  · exact (setTag_spec [("document_id", PyVal.int 0), ("tag_id", PyVal.int 9)]
      [] .none .none .none).2.1 (by decide) (by decide)
  · exact (setTag_spec [("document_id", PyVal.int 3), ("tag_id", PyVal.int 7)]
      [("document_id", PyVal.int 5)] (.int 3) (.int 7) .none).2.2.1
      rfl (by decide) rfl (by decide)
  · exact (setTag_spec [("document_id", PyVal.int 0), ("tag_id", PyVal.int 7)]
      [("document_id", PyVal.int 5)] .none (.int 7) (.int 5)).2.2.2
      (by decide) rfl (by decide) rfl (by decide)

/-!
Claim theorems for totality of the condition evaluator.
-/

/-- C4 counterexample: the evaluator is not total.  A `matches` leaf
whose expected value is the text pattern "(" raises (Python: `re.error`
from `re.search`) instead of returning a boolean. -/
theorem evalConds_raises_on_bad_pattern :
    evalConds
        (.dict [("field", .str "x"), ("operator", .str "matches"),
                ("value", .str "(")])
        (.dict [("x", .str "abc")]) =
      .error "re.error: invalid pattern (" := by
  decide

/-- The model of `re.search` returns cleanly whenever the pattern
parses. -/
theorem reSearch_total (p a : String) (h : (reParse p).isSome = true) :
    ∃ b, reSearch p a = .ok b := by
  unfold reSearch
  cases hp : reParse p with
  | none => rw [hp] at h; simp at h
  | some r => exact ⟨_, rfl⟩

/-- The comparison step never raises unless the operator is `matches`
with a string pattern that fails to parse. -/
theorem pyCompare_total (op actual expected : PyVal)
    (h : matchesSafe op expected = true) :
    ∃ b, pyCompare op actual expected = .ok b := by
  unfold pyCompare
  by_cases h1 : pyEqB op (.str "eq") = true
  · exact ⟨_, by rw [if_pos h1]⟩
  · rw [if_neg h1]
    by_cases h2 : pyEqB op (.str "ne") = true
    · exact ⟨_, by rw [if_pos h2]⟩
    · rw [if_neg h2]
      by_cases h3 : pyEqB op (.str "contains") = true
      · exact ⟨_, by rw [if_pos h3]⟩
      · rw [if_neg h3]
        by_cases h4 : pyEqB op (.str "in") = true
        · exact ⟨_, by rw [if_pos h4]⟩
        · rw [if_neg h4]
          by_cases h5 : pyEqB op (.str "matches") = true
          · rw [if_pos h5]
            unfold matchesSafe at h
            rw [if_pos h5] at h
            cases actual with
            | str a =>
              cases expected with
              | str p => exact reSearch_total p a h
              | none => exact ⟨_, rfl⟩
              | bool b => exact ⟨_, rfl⟩
              | int n => exact ⟨_, rfl⟩
              | list xs => exact ⟨_, rfl⟩
              | dict kvs => exact ⟨_, rfl⟩
            | none => cases expected <;> exact ⟨_, rfl⟩
            | bool b => cases expected <;> exact ⟨_, rfl⟩
            | int n => cases expected <;> exact ⟨_, rfl⟩
            | list xs => cases expected <;> exact ⟨_, rfl⟩
            | dict kvs => cases expected <;> exact ⟨_, rfl⟩
          · rw [if_neg h5]
            by_cases h6 : pyEqB op (.str "gt") = true
            · exact ⟨_, by rw [if_pos h6]⟩
            · rw [if_neg h6]
              by_cases h7 : pyEqB op (.str "lt") = true
              · exact ⟨_, by rw [if_pos h7]⟩
              · rw [if_neg h7]
                by_cases h8 : pyEqB op (.str "exists") = true
                · exact ⟨_, by rw [if_pos h8]⟩
                · exact ⟨_, by rw [if_neg h8]⟩

/-- Short-circuit conjunction/disjunction over sub-evaluations that
all return cleanly returns cleanly. -/
theorem evalSeqFuel_total (ev : PyVal → Except String Bool) (isAll : Bool)
    (xs : List PyVal) (h : ∀ e ∈ xs, ∃ b, ev e = .ok b) :
    ∃ b, evalSeqFuel ev isAll xs = .ok b := by
  induction xs with
  | nil => exact ⟨isAll, rfl⟩
  | cons hd tl ih =>
    obtain ⟨b, hb⟩ := h hd (List.mem_cons_self hd tl)
    have ih' := ih (fun e he => h e (List.mem_cons_of_mem hd he))
    obtain ⟨b2, hb2⟩ := ih'
    by_cases hcase : b = isAll
    · exact ⟨b2, by simp [evalSeqFuel, hb, hcase, hb2]⟩
    · exact ⟨!isAll, by simp [evalSeqFuel, hb, hcase]⟩

/-- With enough fuel, the evaluator returns a boolean on every
well-formed condition tree, for every event payload. -/
theorem evalFuel_total (n : Nat) :
    ∀ c data, pyRank c ≤ n → wfFuel n c = true →
      ∃ b, evalFuel n c data = .ok b := by
  induction n with
  | zero =>
    intro c data hrank _
    exact absurd hrank (by have := pyRank_pos c; omega)
  | succ n ih =>
    intro c data hrank hwf
    cases c with
    | dict kvs =>
      simp only [wfFuel] at hwf
      simp only [evalFuel]
      cases hall : dictGet? kvs "all" with
      | some v =>
        rw [hall] at hwf
        cases v with
        | list xs =>
          simp only [List.all_eq_true] at hwf
          simp only [pyIterVals]
          refine evalSeqFuel_total _ _ _ (fun e he => ?_)
          refine ih e data ?_ (hwf e he)
          have h1 : pyRank e < pyRank (PyVal.list xs) := mem_rank he
          have h2 : pyRank (PyVal.list xs) < pyRank (PyVal.dict kvs) :=
            dictGet?_rank hall
          omega
        | none => simp at hwf
        | bool b => simp at hwf
        | int m => simp at hwf
        | str s => simp at hwf
        | dict kvs2 => simp at hwf
      | none =>
        rw [hall] at hwf
        cases hany : dictGet? kvs "any" with
        | some v =>
          rw [hany] at hwf
          cases v with
          | list xs =>
            simp only [List.all_eq_true] at hwf
            simp only [pyIterVals]
            refine evalSeqFuel_total _ _ _ (fun e he => ?_)
            refine ih e data ?_ (hwf e he)
            have h1 : pyRank e < pyRank (PyVal.list xs) := mem_rank he
            have h2 : pyRank (PyVal.list xs) < pyRank (PyVal.dict kvs) :=
              dictGet?_rank hany
            omega
          | none => simp at hwf
          | bool b => simp at hwf
          | int m => simp at hwf
          | str s => simp at hwf
          | dict kvs2 => simp at hwf
        | none =>
          rw [hany] at hwf
          cases hfield : dictGet? kvs "field" with
          | none => exact ⟨true, rfl⟩
          | some f =>
            rw [hfield] at hwf
            cases f with
            | none => exact ⟨true, rfl⟩
            | str fieldPath => exact pyCompare_total _ _ _ hwf
            | bool b => simp at hwf
            | int m => simp at hwf
            | list xs => simp at hwf
            | dict kvs2 => simp at hwf
    | none => simp [wfFuel] at hwf
    | bool b => simp [wfFuel] at hwf
    | int m => simp [wfFuel] at hwf
    | str s => simp [wfFuel] at hwf
    | list xs => simp [wfFuel] at hwf

/-- C4 amended: the evaluator is deterministic (it is a pure function
of the condition tree and the payload) and total on well-formed
condition trees — dictionaries whose `all`/`any` composites carry
lists of well-formed trees and whose `matches` leaves carry parseable
patterns.  On such trees it returns a boolean and never raises, for
every event payload; malformed shapes outside this set may raise
(`TypeError`/`AttributeError` for non-dictionary shapes, `re.error`
for an invalid `matches` pattern) rather than degrade to false. -/
theorem evalConds_total_on_wellFormed (c data : PyVal)
    (h : wellFormedCond c = true) : ∃ b, evalConds c data = .ok b :=
  evalFuel_total (pyRank c + 1) c data (by omega) h

/-- C4 amended witness: a nested well-formed tree — including a
`matches` leaf whose pattern is a valid character class — evaluates
cleanly. -/
theorem evalConds_total_on_wellFormed_witness :
    wellFormedCond
        (.dict [("all", .list
          [.dict [("field", .str "x"), ("value", .str "abc")],
           .dict [("field", .str "x"), ("operator", .str "matches"),
                  ("value", .str "[abc]")],
           .dict [("any", .list [])]])]) = true ∧
    ∃ b, evalConds
        (.dict [("all", .list
          [.dict [("field", .str "x"), ("value", .str "abc")],
           .dict [("field", .str "x"), ("operator", .str "matches"),
                  ("value", .str "[abc]")],
           .dict [("any", .list [])]])])
        (.dict [("x", .str "abc")]) = .ok b :=
  ⟨by decide,
   evalConds_total_on_wellFormed _ (.dict [("x", .str "abc")]) (by decide)⟩

/-!
Claim theorems for the workflow executor.
-/

/-- Running a prefix that succeeds and then continuing is the same as
continuing from the prefix's accumulated results and context. -/
theorem runActionsLoop_append (run : ActionOracle) (l1 l2 : List Action) :
    ∀ ctx acc results ctx1,
      runActionsLoop run l1 ctx acc = .ok (results, ctx1) →
      runActionsLoop run (l1 ++ l2) ctx acc = runActionsLoop run l2 ctx1 results := by
  induction l1 with
  | nil =>
    intro ctx acc results ctx1 h
    simp only [runActionsLoop] at h
    cases h
    simp [runActionsLoop]
  | cons a rest ih =>
    intro ctx acc results ctx1 h
    simp only [runActionsLoop, List.cons_append] at h ⊢
    cases hr : run a ctx with
    | error m => rw [hr] at h; cases h
    | ok pr =>
      rw [hr] at h
      obtain ⟨res, ctxMut⟩ := pr
      exact ih _ _ _ _ h

/-- C1: when an action handler raises, the run finishes `error` with
the exception's message, the actions after the failing one are never
run (the result does not depend on `post` or on the oracle's behavior
there), and the results already collected are discarded — the log's
output stays unset and only the error message is retained. -/
theorem executeWorkflow_action_error (w : Workflow) (run : ActionOracle)
    (workflowId : String) (ev : PyDict) (pre post : List Action) (a : Action)
    (results : List PyVal) (ctx1 : PyDict) (m : String)
    (hen : w.enabled = true)
    (htrig : firstTriggerMatch w.triggers ev = .ok true ∨ w.triggers = [])
    (hsort : sortActions w.actions = pre ++ a :: post)
    (hpre : runActionsLoop run pre ev [] = .ok (results, ctx1))
    (hfail : run a ctx1 = .error m) :
    executeWorkflow (some w) run workflowId ev =
      { workflow_id := workflowId, status := "error", input_data := ev,
        output_data := Option.none, error_message := some m } := by
  have hloop : runActionsLoop run (sortActions w.actions) ev [] = .error m := by
    rw [hsort, runActionsLoop_append run pre (a :: post) ev [] results ctx1 hpre]
    simp [runActionsLoop, hfail]
  rcases htrig with ht | ht
  · simp [executeWorkflow, hen, ht, runPhase, hloop, initialLog]
  · simp [executeWorkflow, hen, ht, firstTriggerMatch, runPhase, hloop, initialLog]

/-- C1 witness: a two-action workflow whose first action succeeds and
whose second raises finishes `error` with the message, no output. -/
theorem executeWorkflow_action_error_witness :
    executeWorkflow
        (some { name := "w", enabled := true, triggers := [],
                actions := [{ action_type := "good", parameters := Option.none,
                              sort_order := 0 },
                            { action_type := "bad", parameters := Option.none,
                              sort_order := 1 }] })
        (fun a ctx =>
          if a.action_type == "good" then .ok ([("x", PyVal.int 1)], ctx)
          else .error "boom")
        "wid" [] =
      { workflow_id := "wid", status := "error", input_data := [],
        output_data := Option.none, error_message := some "boom" } :=
  executeWorkflow_action_error _ _ "wid" []
    [{ action_type := "good", parameters := Option.none, sort_order := 0 }] []
    { action_type := "bad", parameters := Option.none, sort_order := 1 }
    [PyVal.dict [("action_type", .str "good"),
                 ("result", .dict [("x", PyVal.int 1)])]]
    [("x", PyVal.int 1)] "boom" rfl (Or.inr rfl) rfl rfl rfl

/-- C2: for every lookup result, every oracle, every workflow id and
every input payload, the executor returns a log record whose status is
one of the terminal states `skipped`, `success` or `error` — never
`running` — and, being a total function, it always produces such a
record, also when the workflow cannot be found or an action raises. -/
theorem executeWorkflow_terminal_status (find : Option Workflow)
    (run : ActionOracle) (workflowId : String) (ev : PyDict) :
    (executeWorkflow find run workflowId ev).status = "skipped" ∨
    (executeWorkflow find run workflowId ev).status = "success" ∨
    (executeWorkflow find run workflowId ev).status = "error" := by
  cases find with
  | none => right; right; rfl
  | some w =>
    by_cases hen : w.enabled = true
    · cases htm : firstTriggerMatch w.triggers ev with
      | error m => right; right; simp [executeWorkflow, hen, htm]
      | ok matched =>
        by_cases hskip : (!matched && !w.triggers.isEmpty) = true
        · left; simp [executeWorkflow, hen, htm, hskip]
        · cases hrun : runActionsLoop run (sortActions w.actions) ev [] with
          | error m =>
            right; right
            simp [executeWorkflow, hen, htm, hskip, runPhase, hrun]
          | ok pr =>
            obtain ⟨results, ctxFin⟩ := pr
            right; left
            simp [executeWorkflow, hen, htm, hskip, runPhase, hrun]
    · left
      have hen' : w.enabled = false := by
        cases h : w.enabled
        · rfl
        · exact absurd h hen
      simp [executeWorkflow, hen']

/-- C3: an enabled workflow with an empty trigger list goes straight
to the action phase for every event payload — trigger matching is
skipped and the run never finishes `skipped` (its status is `success`
or `error`, depending only on the actions). -/
theorem executeWorkflow_no_triggers_runs_actions (w : Workflow)
    (run : ActionOracle) (workflowId : String) (ev : PyDict)
    (hen : w.enabled = true) (htrig : w.triggers = []) :
    executeWorkflow (some w) run workflowId ev =
      runPhase run (sortActions w.actions) (initialLog workflowId ev) ev ∧
    ((executeWorkflow (some w) run workflowId ev).status = "success" ∨
     (executeWorkflow (some w) run workflowId ev).status = "error") := by
  have hmain : executeWorkflow (some w) run workflowId ev =
      runPhase run (sortActions w.actions) (initialLog workflowId ev) ev := by
    simp [executeWorkflow, hen, htrig, firstTriggerMatch]
  refine ⟨hmain, ?_⟩
  rw [hmain]
  cases hrun : runActionsLoop run (sortActions w.actions) ev [] with
  | error m => right; simp [runPhase, hrun]
  | ok pr =>
    obtain ⟨results, ctxFin⟩ := pr
    left
    simp [runPhase, hrun]

/-- C3 witness: a concrete enabled, trigger-less workflow runs its
action phase on an arbitrary event. -/
theorem executeWorkflow_no_triggers_runs_actions_witness :
    executeWorkflow
        (some { name := "w", enabled := true, triggers := [],
                actions := [{ action_type := "good", parameters := Option.none,
                              sort_order := 0 }] })
        (fun _ ctx => .ok ([("x", PyVal.int 1)], ctx)) "wid"
        [("event_type", PyVal.str "anything")] =
      runPhase (fun _ ctx => .ok ([("x", PyVal.int 1)], ctx))
        (sortActions [{ action_type := "good", parameters := Option.none,
                        sort_order := 0 }])
        (initialLog "wid" [("event_type", PyVal.str "anything")])
        [("event_type", PyVal.str "anything")] ∧
    ((executeWorkflow
        (some { name := "w", enabled := true, triggers := [],
                actions := [{ action_type := "good", parameters := Option.none,
                              sort_order := 0 }] })
        (fun _ ctx => .ok ([("x", PyVal.int 1)], ctx)) "wid"
        [("event_type", PyVal.str "anything")]).status = "success" ∨
     (executeWorkflow
        (some { name := "w", enabled := true, triggers := [],
                actions := [{ action_type := "good", parameters := Option.none,
                              sort_order := 0 }] })
        (fun _ ctx => .ok ([("x", PyVal.int 1)], ctx)) "wid"
        [("event_type", PyVal.str "anything")]).status = "error") :=
  executeWorkflow_no_triggers_runs_actions _ _ "wid"
    [("event_type", PyVal.str "anything")] rfl rfl

end Engine
